import Mathlib

set_option linter.unusedVariables false

/-!
Verification of the `dry` application controller (`app/dry.go`) against its
specification. The controller is shallowly embedded: the mutex-guarded state
record, the view-mode machine, the sort-mode rotation, the fetch-then-show
handlers, the prune/report pair backed by a go-cache store, and the outbox
message emission are translated into pure Lean functions. The Daemon Gateway
is an external collaborator: a record of responses is passed per controller
invocation. Time is modelled in seconds as `Nat`. Go `(pointer, error)`
returns are modelled as `Option record × Option GoErr`; a handler that may
dereference a nil pointer returns `Option Dry`, `none` standing for the panic.
-/

/-- Models a Go `error` value by the string its `Error()` method returns. -/
structure GoErr where
  msg : String
  deriving DecidableEq

/-- Modelled from the spec: the `viewMode` enumeration. Its declaration lives
outside `app/dry.go`; the constructors are the values the controller references
(spec section 3). -/
inductive viewMode where
  | Main | Images | Networks
  | DiskUsage | EventsMode | HelpMode | ImageHistoryMode | InfoMode
  | InspectImageMode | InspectNetworkMode | Monitor | Nodes | Services
  | ServiceTasks | Tasks
  deriving DecidableEq

/-- Modelled from the spec: the main screens are the container list (`Main`),
the image list (`Images`) and the network list (`Networks`) (spec section 3 and
glossary). -/
def viewMode.isMainScreen : viewMode → Bool
  | .Main => true
  | .Images => true
  | .Networks => true
  | _ => false

/-- Modelled from the spec: the network sort modes (spec section 4.2).
`other n` stands for any value of the underlying enumeration that is not one of
the three network sort modes (unknown/uninitialized values, on which the
rotation's `switch` falls through to its empty `default`). -/
inductive SortMode where
  | SortNetworksByID | SortNetworksByName | SortNetworksByDriver
  | other (n : Nat)
  deriving DecidableEq

/-- Abridged model of `types.ImageSummary`: the controller reads only `ID`. -/
structure ImageSummary where
  ID : String
  deriving DecidableEq

/-- Abridged model of `types.NetworkResource`: the controller reads only `ID`;
`Name` keeps distinct records distinguishable. -/
structure NetworkResource where
  ID : String
  Name : String
  deriving DecidableEq

/-- Abridged model of `types.ImageInspect`. -/
structure ImageInspect where
  ID : String
  deriving DecidableEq

/-- Abridged model of `image.HistoryResponseItem`. -/
structure HistoryResponseItem where
  ID : String
  deriving DecidableEq

/-- Abridged model of `types.Info`. -/
structure Info where
  Name : String
  deriving DecidableEq

/-- Abridged model of `drydocker.PruneReport`. -/
structure PruneReport where
  data : String
  deriving DecidableEq

/-- The mutex-guarded application state (`state` in dry.go:19). The
`sync.RWMutex` is a concurrency device with no sequential content and is not
modelled. -/
structure state where
  previousViewMode : viewMode
  viewMode : viewMode
  sortNetworksMode : SortMode
  deriving DecidableEq

/-- A go-cache item: the stored value plus its absolute expiration instant.
The only values cached by this core are `*drydocker.PruneReport` pointers,
modelled as `Option PruneReport` (`none` is a nil pointer). -/
structure cacheItem where
  value : Option PruneReport
  expiration : Nat
  deriving DecidableEq

/-- Model of the `patrickmn/go-cache` store held in `Dry.cache`. -/
structure Cache where
  items : List (String × cacheItem)
  deriving DecidableEq

/-- go-cache `Get`: returns the stored value when the key is present and not
expired; an item is expired once the current instant is strictly past its
expiration, and an expired item behaves as absent. -/
def Cache.get (c : Cache) (k : String) (now : Nat) : Option (Option PruneReport) :=
  match c.items.lookup k with
  | some item => if now ≤ item.expiration then some item.value else none
  | none => none

/-- go-cache `Add`: inserts only when no unexpired item exists for the key;
otherwise it returns an error and leaves the store unchanged (`Add` never
overwrites a live entry, unlike `Set`). -/
def Cache.add (c : Cache) (k : String) (v : Option PruneReport) (ttl now : Nat) :
    Cache × Option GoErr :=
  match c.get k now with
  | some _ => (c, some { msg := "Item " ++ k ++ " already exists" })
  | none =>
      ({ items := (k, { value := v, expiration := now + ttl }) ::
          c.items.filter (fun p => p.1 != k) }, none)

/-- Modelled from the spec: the Daemon Gateway (`drydocker.ContainerDaemon`,
declared outside `app/dry.go`; spec section 6). One record of responses is
passed per controller invocation. Position lookups (`ImageAt`, `NetworkAt`)
return a Go `(pointer, error)` pair, so the record component is an `Option`
(`none` is a nil pointer); `History`, `InspectImage`, `NetworkInspect`,
`Networks` and `Info` return their results by value alongside an optional
error, matching their call sites in dry.go; `Prune` returns a report pointer
and an optional error. -/
structure DaemonResponses where
  ImageAt : Int → Option ImageSummary × Option GoErr
  NetworkAt : Int → Option NetworkResource × Option GoErr
  History : String → List HistoryResponseItem × Option GoErr
  InspectImage : String → ImageInspect × Option GoErr
  NetworkInspect : String → NetworkResource × Option GoErr
  Networks : List NetworkResource × Option GoErr
  Info : Info × Option GoErr
  Prune : Option PruneReport × Option GoErr

/-- The application (`Dry` in dry.go:27), restricted to the fields the verified
operations touch. `output` records the messages handed to `appmessage`; the
channel's best-effort delivery to a consumer is outside the sequential model.
The widget registry and the docker event plumbing are external side effects
with no sequential state here. -/
structure Dry where
  imageHistory : List HistoryResponseItem
  info : Info
  inspectedImage : ImageInspect
  inspectedNetwork : NetworkResource
  networks : List NetworkResource
  output : List String
  state : state
  cache : Cache

/-- Modelled from the spec: the cache key of the prune report (the constant
`pruneReport` is declared outside `app/dry.go`; spec section 3 describes it as
an operation identifier such as "prune-report"). -/
def pruneReport : String := "prune-report"

/-- `appmessage` (dry.go:364): hand a message to the outbox. -/
def Dry.appmessage (d : Dry) (message : String) : Dry :=
  { d with output := d.output ++ [message] }

/-- `errorMessage` (dry.go:378). -/
def Dry.errorMessage (d : Dry) (cid : String) (action : String) (e : GoErr) : Dry :=
  d.appmessage
    ("<red>Error " ++ action ++ " container </><white>" ++ cid ++ ". " ++ e.msg ++ "</>")

/-- `SetViewMode` (dry.go:50): a main-screen argument is also recorded as the
view to go back to; then the active mode is set. -/
def Dry.SetViewMode (d : Dry) (newViewMode : viewMode) : Dry :=
  let st := d.state
  let st1 := if newViewMode.isMainScreen then { st with previousViewMode := newViewMode } else st
  { d with state := { st1 with viewMode := newViewMode } }

/-- `changeViewMode` (dry.go:44); the screen refresh is an external side
effect. -/
def Dry.changeViewMode (d : Dry) (newViewMode : viewMode) : Dry :=
  d.SetViewMode newViewMode

/-- `History` (dry.go:77). -/
def Dry.History (d : Dry) (dd : DaemonResponses) (id : String) : Dry :=
  match dd.History id with
  | (history, none) => { d.changeViewMode .ImageHistoryMode with imageHistory := history }
  | (_, some err) =>
      d.appmessage
        ("<red>Error getting history of image </><white>" ++ id ++ ": " ++ err.msg ++ "</>")

/-- `HistoryAt` (dry.go:68); the failure branch uses only the error, while the
success branch dereferences the record (`apiImage.ID`), so a nil record with a
nil error is a panic (`none`). -/
def Dry.HistoryAt (d : Dry) (dd : DaemonResponses) (position : Int) : Option Dry :=
  match dd.ImageAt position with
  | (some apiImage, none) => some (d.History dd apiImage.ID)
  | (none, none) => none
  | (_, some err) =>
      some (d.appmessage
        ("<red>Error getting history of image </><white>: " ++ err.msg ++ "</>"))

/-- `InspectImage` (dry.go:97). -/
def Dry.InspectImage (d : Dry) (dd : DaemonResponses) (id : String) : Dry :=
  match dd.InspectImage id with
  | (image, none) => { d.changeViewMode .InspectImageMode with inspectedImage := image }
  | (_, some err) => d.errorMessage id "inspecting image" err

/-- `InspectImageAt` (dry.go:88); both branches dereference the record
(`apiImage.ID`), so a nil record is a nil-pointer panic (`none`) whether or not
the lookup reported an error. -/
def Dry.InspectImageAt (d : Dry) (dd : DaemonResponses) (position : Int) : Option Dry :=
  match dd.ImageAt position with
  | (some apiImage, none) => some (d.InspectImage dd apiImage.ID)
  | (none, none) => none
  | (some apiImage, some err) => some (d.errorMessage apiImage.ID "inspecting image" err)
  | (none, some _) => none

/-- `InspectNetwork` (dry.go:117). In the failure branch the message uses the
`ID` of the (zero-valued) record returned alongside the error, exactly as the
source reads `network.ID` there. -/
def Dry.InspectNetwork (d : Dry) (dd : DaemonResponses) (id : String) : Dry :=
  match dd.NetworkInspect id with
  | (network, none) => { d.changeViewMode .InspectNetworkMode with inspectedNetwork := network }
  | (network, some err) => d.errorMessage network.ID "inspecting network" err

/-- `InspectNetworkAt` (dry.go:108); both branches dereference the record
(`network.ID`), so a nil record is a nil-pointer panic (`none`). -/
def Dry.InspectNetworkAt (d : Dry) (dd : DaemonResponses) (position : Int) : Option Dry :=
  match dd.NetworkAt position with
  | (some network, none) => some (d.InspectNetwork dd network.ID)
  | (none, none) => none
  | (some network, some err) => some (d.errorMessage network.ID "inspecting network" err)
  | (none, some _) => none

/-- `ShowMainView` (dry.go:259). -/
def Dry.ShowMainView (d : Dry) : Dry :=
  d.changeViewMode d.state.previousViewMode

/-- `ShowInfo` (dry.go:290): the only fetch handler that returns the failure to
its caller instead of writing to the outbox. -/
def Dry.ShowInfo (d : Dry) (dd : DaemonResponses) : Dry × Option GoErr :=
  match dd.Info with
  | (info, none) => ({ d.changeViewMode .InfoMode with info := info }, none)
  | (_, some err) => (d, some err)

/-- `ShowNetworks` (dry.go:308). -/
def Dry.ShowNetworks (d : Dry) (dd : DaemonResponses) : Dry :=
  match dd.Networks with
  | (networks, none) => { d.changeViewMode .Networks with networks := networks }
  | (_, some err) => d.appmessage ("Could not retrieve network list: " ++ err.msg ++ " ")

/-- `SortNetworks` (dry.go:343): rotate to the next sort mode; the `switch`
falls through for any other value. Pushing the directive to the daemon and the
screen refresh are external side effects. -/
def Dry.SortNetworks (d : Dry) : Dry :=
  let next :=
    match d.state.sortNetworksMode with
    | .SortNetworksByID => SortMode.SortNetworksByName
    | .SortNetworksByName => SortMode.SortNetworksByDriver
    | .SortNetworksByDriver => SortMode.SortNetworksByID
    | m => m
  { d with state := { d.state with sortNetworksMode := next } }

/-- `Prune` (dry.go:161): on success the report is stored with `cache.Add` and
a 30 second ttl (the error value returned by `Add` is discarded, as in the
source); on failure an outbox message is emitted. -/
def Dry.Prune (d : Dry) (dd : DaemonResponses) (now : Nat) : Dry :=
  match dd.Prune with
  | (pr, none) => { d with cache := (d.cache.add pruneReport pr 30 now).1 }
  | (_, some err) => d.appmessage ("<red>Error running prune. " ++ err.msg ++ "</>")

/-- `PruneReport` (dry.go:173): the cached report when an unexpired entry
exists, nil otherwise. -/
def Dry.PruneReport (d : Dry) (now : Nat) : Option PruneReport :=
  match d.cache.get pruneReport now with
  | some pr => pr
  | none => none

/-- `newDry` (dry.go:391), sequential content: the initial state designates the
container list as both the active and the previous view mode, sorts networks by
ID, and starts with an empty cache, an empty outbox and zero-valued
snapshots. -/
def newDry : Dry :=
  { imageHistory := [],
    info := { Name := "" },
    inspectedImage := { ID := "" },
    inspectedNetwork := { ID := "", Name := "" },
    networks := [],
    output := [],
    state := { previousViewMode := .Main, viewMode := .Main,
               sortNetworksMode := .SortNetworksByID },
    cache := { items := [] } }

/-- Harness: run a finite sequence of `SetViewMode` calls, first call first. -/
def Dry.applySetViewModes (d : Dry) (ms : List viewMode) : Dry :=
  ms.foldl Dry.SetViewMode d

/-- Harness for the rotation claim: the same application state with the network
sort mode replaced. -/
def Dry.withSortMode (d : Dry) (m : SortMode) : Dry :=
  { d with state := { d.state with sortNetworksMode := m } }

/-- Checks whether the second character list is a prefix of the first. -/
def startsWith : List Char → List Char → Bool
  | _, [] => true
  | [], _ :: _ => false
  | a :: as, b :: bs => a == b && startsWith as bs

/-- Checks whether the second character list occurs inside the first. -/
def containsChars : List Char → List Char → Bool
  | [], w => startsWith [] w
  | a :: rest, w => startsWith (a :: rest) w || containsChars rest w

/-- Checks whether `w` occurs in `s` as a substring. -/
def containsWord (s w : String) : Bool :=
  containsChars s.data w.data

/-- `viewMode` (dry.go:385): read the active view mode (declared after the
other `Dry` operations so that the type named `viewMode` stays directly
accessible inside them). -/
def Dry.viewMode (d : Dry) : viewMode :=
  d.state.viewMode

/-- Concrete gateway on which every fetch succeeds with recognizable data. -/
def ddOk : DaemonResponses :=
  { ImageAt := fun _ => (some { ID := "img1" }, none),
    NetworkAt := fun _ => (some { ID := "net1", Name := "bridge" }, none),
    History := fun _ => ([{ ID := "layer1" }], none),
    InspectImage := fun id => ({ ID := id }, none),
    NetworkInspect := fun id => ({ ID := id, Name := "bridge" }, none),
    Networks := ([{ ID := "net1", Name := "bridge" }], none),
    Info := ({ Name := "host1" }, none),
    Prune := (some { data := "report-1" }, none) }

/-- Concrete gateway on which every call fails, returning a non-nil record
alongside the error. -/
def ddFail : DaemonResponses :=
  { ImageAt := fun _ => (some { ID := "img1" }, some { msg := "no image" }),
    NetworkAt := fun _ => (some { ID := "net1", Name := "bridge" }, some { msg := "no network" }),
    History := fun _ => ([], some { msg := "hist fail" }),
    InspectImage := fun _ => ({ ID := "" }, some { msg := "insp fail" }),
    NetworkInspect := fun _ => ({ ID := "", Name := "" }, some { msg := "netinsp fail" }),
    Networks := ([], some { msg := "list fail" }),
    Info := ({ Name := "" }, some { msg := "info fail" }),
    Prune := (none, some { msg := "prune fail" }) }

/-- Concrete gateway whose position lookups fail returning a nil record with
the error, the usual Go convention for a `(pointer, error)` pair. -/
def ddNil : DaemonResponses :=
  { ImageAt := fun _ => (none, some { msg := "no image at position 0" }),
    NetworkAt := fun _ => (none, some { msg := "no network at position 0" }),
    History := fun _ => ([], none),
    InspectImage := fun id => ({ ID := id }, none),
    NetworkInspect := fun id => ({ ID := id, Name := "" }, none),
    Networks := ([], none),
    Info := ({ Name := "" }, none),
    Prune := (none, none) }

/-- Concrete gateway whose prune produces a second, different report. -/
def ddPrune2 : DaemonResponses :=
  { ddOk with Prune := (some { data := "report-2" }, none) }

/-- Helper: the last element of a list with one appended. -/
theorem getLastD_append_single {α : Type} (l : List α) (a : α) : ∀ x : α,
    (l ++ [a]).getLastD x = a := by
  induction l with
  | nil => intro x; rfl
  | cons b l ih => intro x; rw [List.cons_append, List.getLastD_cons]; exact ih b

/-- Helper: `SetViewMode` always installs its argument as the active mode. -/
theorem setViewMode_viewMode (d : Dry) (m : viewMode) :
    (d.SetViewMode m).state.viewMode = m := rfl

/-- Helper: `SetViewMode` updates the previous view mode exactly on main-screen
arguments. -/
theorem setViewMode_prev (d : Dry) (m : viewMode) :
    (d.SetViewMode m).state.previousViewMode =
      if m.isMainScreen then m else d.state.previousViewMode := by
  cases h : m.isMainScreen <;> simp [Dry.SetViewMode, h]

/-- Helper: the state reached by a sequence of `SetViewMode` calls, from any
start: the active mode is the last argument and the previous view mode is the
last main-screen argument, with the start state supplying the defaults. -/
theorem applySetViewModes_state (ms : List viewMode) : ∀ d : Dry,
    (d.applySetViewModes ms).state.viewMode = ms.getLastD d.state.viewMode ∧
    (d.applySetViewModes ms).state.previousViewMode =
      (ms.filter viewMode.isMainScreen).getLastD d.state.previousViewMode := by
  induction ms with
  | nil => intro d; exact ⟨rfl, rfl⟩
  | cons m ms ih =>
      intro d
      have hstep : d.applySetViewModes (m :: ms) = (d.SetViewMode m).applySetViewModes ms := rfl
      refine ⟨?_, ?_⟩
      · rw [hstep, (ih (d.SetViewMode m)).1, setViewMode_viewMode, List.getLastD_cons]
      · rw [hstep, (ih (d.SetViewMode m)).2, setViewMode_prev, List.filter_cons]
        by_cases h : m.isMainScreen = true
        · rw [if_pos h, if_pos h, List.getLastD_cons]
        · rw [if_neg h, if_neg h]

/-- Helper: the last element of a list of main-screen modes, with a main-screen
default, is a main-screen mode. -/
theorem isMainScreen_getLastD_filter (l : List viewMode) : ∀ d : viewMode,
    d.isMainScreen = true →
    ((l.filter viewMode.isMainScreen).getLastD d).isMainScreen = true := by
  induction l with
  | nil => intro d hd; exact hd
  | cons m l ih =>
      intro d hd
      rw [List.filter_cons]
      by_cases h : m.isMainScreen = true
      · rw [if_pos h, List.getLastD_cons]; exact ih m h
      · rw [if_neg h]; exact ih d hd

/-- C1: for every finite sequence of `SetViewMode` calls starting from the
initial state, the view mode read afterwards equals the argument of the last
call, and the stored previous main view mode equals the argument of the most
recent call whose argument was a main-screen value, or the initial default main
screen (`Main`) if there was none. -/
theorem setViewMode_sequence_spec (ms : List viewMode) (m : viewMode) :
    (newDry.applySetViewModes (ms ++ [m])).viewMode = m ∧
    (newDry.applySetViewModes (ms ++ [m])).state.previousViewMode =
      ((ms ++ [m]).filter viewMode.isMainScreen).getLastD viewMode.Main := by
  have h := applySetViewModes_state (ms ++ [m]) newDry
  refine ⟨?_, ?_⟩
  · rw [Dry.viewMode, h.1]
    exact getLastD_append_single ms m _
  · exact h.2

/-- C4: after any finite sequence of view-mode transitions from the initial
state (every controller transition goes through `SetViewMode`), `ShowMainView`
lands on a main-screen value, and the stored previous view mode always holds a
main-screen value, including before any main screen has ever been explicitly
activated (the empty sequence). -/
theorem showMainView_lands_on_main_screen (ms : List viewMode) :
    viewMode.isMainScreen (newDry.applySetViewModes ms).ShowMainView.viewMode = true ∧
    viewMode.isMainScreen (newDry.applySetViewModes ms).state.previousViewMode = true := by
  have hprev :
      viewMode.isMainScreen (newDry.applySetViewModes ms).state.previousViewMode = true := by
    rw [(applySetViewModes_state ms newDry).2]
    exact isMainScreen_getLastD_filter ms viewMode.Main rfl
  exact ⟨hprev, hprev⟩

/-- C5: the sort-mode rotation is total and cyclic with period 3: a single
application advances by-ID to by-name, by-name to by-driver and by-driver to
by-ID, three applications return each of the three modes to itself, and any
other (unknown/uninitialized) mode value is left unchanged. -/
theorem sortNetworks_cycle (d : Dry) (n : Nat) :
    ((d.withSortMode .SortNetworksByID).SortNetworks).state.sortNetworksMode =
      SortMode.SortNetworksByName ∧
    ((d.withSortMode .SortNetworksByName).SortNetworks).state.sortNetworksMode =
      SortMode.SortNetworksByDriver ∧
    ((d.withSortMode .SortNetworksByDriver).SortNetworks).state.sortNetworksMode =
      SortMode.SortNetworksByID ∧
    ((d.withSortMode .SortNetworksByID).SortNetworks.SortNetworks.SortNetworks).state.sortNetworksMode =
      SortMode.SortNetworksByID ∧
    ((d.withSortMode .SortNetworksByName).SortNetworks.SortNetworks.SortNetworks).state.sortNetworksMode =
      SortMode.SortNetworksByName ∧
    ((d.withSortMode .SortNetworksByDriver).SortNetworks.SortNetworks.SortNetworks).state.sortNetworksMode =
      SortMode.SortNetworksByDriver ∧
    ((d.withSortMode (.other n)).SortNetworks).state.sortNetworksMode = SortMode.other n :=
  ⟨rfl, rfl, rfl, rfl, rfl, rfl, rfl⟩

/-- C3: every fetch-then-show handler (History, InspectImage, InspectNetwork,
ShowNetworks) converts a failing Daemon Gateway call into a formatted outbox
message and returns normally (the handlers return a plain new application
value, never a failure); the result differs from the input only by the emitted
message, so the whole state record — in particular the active view mode and the
previous main view mode — is unchanged. -/
theorem fetch_then_show_failure_absorbed (d : Dry) (dd : DaemonResponses) (id : String)
    (l1 : List HistoryResponseItem) (i2 : ImageInspect) (n3 : NetworkResource)
    (ns4 : List NetworkResource) (e1 e2 e3 e4 : GoErr)
    (h1 : dd.History id = (l1, some e1))
    (h2 : dd.InspectImage id = (i2, some e2))
    (h3 : dd.NetworkInspect id = (n3, some e3))
    (h4 : dd.Networks = (ns4, some e4)) :
    (d.History dd id = d.appmessage
       ("<red>Error getting history of image </><white>" ++ id ++ ": " ++ e1.msg ++ "</>") ∧
     (d.History dd id).state = d.state) ∧
    (d.InspectImage dd id = d.errorMessage id "inspecting image" e2 ∧
     (d.InspectImage dd id).state = d.state) ∧
    (d.InspectNetwork dd id = d.errorMessage n3.ID "inspecting network" e3 ∧
     (d.InspectNetwork dd id).state = d.state) ∧
    (d.ShowNetworks dd = d.appmessage ("Could not retrieve network list: " ++ e4.msg ++ " ") ∧
     (d.ShowNetworks dd).state = d.state) := by
  refine ⟨⟨?_, ?_⟩, ⟨?_, ?_⟩, ⟨?_, ?_⟩, ⟨?_, ?_⟩⟩ <;>
    simp [Dry.History, Dry.InspectImage, Dry.InspectNetwork, Dry.ShowNetworks,
      Dry.errorMessage, Dry.appmessage, h1, h2, h3, h4]

/-- Witness for C3: the failure absorption at a concrete failing gateway and
the initial state. -/
theorem fetch_then_show_failure_absorbed_witness :
    (newDry.History ddFail "img1" = newDry.appmessage
       ("<red>Error getting history of image </><white>" ++ "img1" ++ ": " ++ "hist fail" ++ "</>") ∧
     (newDry.History ddFail "img1").state = newDry.state) ∧
    (newDry.InspectImage ddFail "img1" =
       newDry.errorMessage "img1" "inspecting image" { msg := "insp fail" } ∧
     (newDry.InspectImage ddFail "img1").state = newDry.state) ∧
    (newDry.InspectNetwork ddFail "img1" =
       newDry.errorMessage "" "inspecting network" { msg := "netinsp fail" } ∧
     (newDry.InspectNetwork ddFail "img1").state = newDry.state) ∧
    (newDry.ShowNetworks ddFail =
       newDry.appmessage ("Could not retrieve network list: " ++ "list fail" ++ " ") ∧
     (newDry.ShowNetworks ddFail).state = newDry.state) :=
  fetch_then_show_failure_absorbed newDry ddFail "img1" [] { ID := "" }
    { ID := "", Name := "" } [] { msg := "hist fail" } { msg := "insp fail" }
    { msg := "netinsp fail" } { msg := "list fail" } rfl rfl rfl rfl

/-- C6: a successful network-inspect call sets the active view mode to the
network-inspect mode and stores exactly the record returned by the gateway as
the inspected-network snapshot. -/
theorem inspectNetwork_success (d : Dry) (dd : DaemonResponses) (id : String)
    (r : NetworkResource) (h : dd.NetworkInspect id = (r, none)) :
    (d.InspectNetwork dd id).state.viewMode = viewMode.InspectNetworkMode ∧
    (d.InspectNetwork dd id).inspectedNetwork = r := by
  refine ⟨?_, ?_⟩ <;>
    simp [Dry.InspectNetwork, h, Dry.changeViewMode, Dry.SetViewMode]

/-- Witness for C6: inspecting "net1" on a gateway that returns a record for
it. -/
theorem inspectNetwork_success_witness :
    (newDry.InspectNetwork ddOk "net1").state.viewMode = viewMode.InspectNetworkMode ∧
    (newDry.InspectNetwork ddOk "net1").inspectedNetwork = { ID := "net1", Name := "bridge" } :=
  inspectNetwork_success newDry ddOk "net1" { ID := "net1", Name := "bridge" } rfl

/-- C8: a failing host-info fetch makes `ShowInfo` return the failure to its
caller, with the application value — view modes, host-info snapshot and outbox
— completely untouched; a successful fetch returns no error, switches to the
info mode without touching the previous view mode, stores the fetched host
info, and emits nothing. -/
theorem showInfo_error_propagation (d : Dry) (ddf dds : DaemonResponses)
    (i0 i : Info) (e : GoErr)
    (hf : ddf.Info = (i0, some e)) (hs : dds.Info = (i, none)) :
    d.ShowInfo ddf = (d, some e) ∧
    (d.ShowInfo dds).2 = none ∧
    (d.ShowInfo dds).1.state.viewMode = viewMode.InfoMode ∧
    (d.ShowInfo dds).1.state.previousViewMode = d.state.previousViewMode ∧
    (d.ShowInfo dds).1.info = i ∧
    (d.ShowInfo dds).1.output = d.output := by
  refine ⟨?_, ?_, ?_, ?_, ?_, ?_⟩ <;>
    simp [Dry.ShowInfo, hf, hs, Dry.changeViewMode, Dry.SetViewMode, viewMode.isMainScreen]

/-- Witness for C8: a failing and a succeeding host-info fetch at the initial
state. -/
theorem showInfo_error_propagation_witness :
    newDry.ShowInfo ddFail = (newDry, some { msg := "info fail" }) ∧
    (newDry.ShowInfo ddOk).2 = none ∧
    (newDry.ShowInfo ddOk).1.state.viewMode = viewMode.InfoMode ∧
    (newDry.ShowInfo ddOk).1.state.previousViewMode = newDry.state.previousViewMode ∧
    (newDry.ShowInfo ddOk).1.info = { Name := "host1" } ∧
    (newDry.ShowInfo ddOk).1.output = newDry.output :=
  showInfo_error_propagation newDry ddFail ddOk { Name := "" } { Name := "host1" }
    { msg := "info fail" } rfl rfl

/-- C10: in the failure branch of a position lookup, `InspectImageAt` and
`InspectNetworkAt` read the `ID` field of the record returned alongside the
error to build the message; for a position at which the lookup fails, the
handler avoids a nil-pointer panic (`none`) exactly when the gateway returned a
non-nil record with the error. -/
theorem position_error_branch_requires_record (d : Dry) (dd : DaemonResponses)
    (p : Int) (img : Option ImageSummary) (net : Option NetworkResource) (e1 e2 : GoErr)
    (h1 : dd.ImageAt p = (img, some e1))
    (h2 : dd.NetworkAt p = (net, some e2)) :
    ((d.InspectImageAt dd p).isSome ↔ img.isSome) ∧
    ((d.InspectNetworkAt dd p).isSome ↔ net.isSome) := by
  constructor
  · cases img <;> simp [Dry.InspectImageAt, h1]
  · cases net <;> simp [Dry.InspectNetworkAt, h2]

/-- Witness for C10: a gateway that fails position lookups with a nil record
makes both handlers panic. -/
theorem position_error_branch_requires_record_witness :
    ((newDry.InspectImageAt ddNil 0).isSome ↔ (none : Option ImageSummary).isSome) ∧
    ((newDry.InspectNetworkAt ddNil 0).isSome ↔ (none : Option NetworkResource).isSome) :=
  position_error_branch_requires_record newDry ddNil 0 none none
    { msg := "no image at position 0" } { msg := "no network at position 0" } rfl rfl

/-- Helper: an `Add` into a key slot with no unexpired entry stores the value,
and a `Get` within the ttl finds it. -/
theorem cacheGet_add_fresh (c : Cache) (k : String) (v : Option PruneReport)
    (ttl t t' : Nat) (h0 : c.get k t = none) (h : t' ≤ t + ttl) :
    (Cache.add c k v ttl t).1.get k t' = some v := by
  have hadd : Cache.add c k v ttl t =
      ({ items := (k, { value := v, expiration := t + ttl }) ::
          c.items.filter (fun p => p.1 != k) }, none) := by
    simp [Cache.add, h0]
  rw [hadd]
  simp [Cache.get, List.lookup, h]

/-- Helper: an `Add` against a live (unexpired) entry is rejected and leaves
the store unchanged. -/
theorem cacheAdd_live_rejected (c : Cache) (k : String) (v : Option PruneReport)
    (ttl t : Nat) (h : (c.get k t).isSome = true) :
    Cache.add c k v ttl t = (c, some { msg := "Item " ++ k ++ " already exists" }) := by
  rcases hx : c.get k t with _ | x
  · rw [hx] at h; simp at h
  · simp [Cache.add, hx]

/-- Helper: after its expiration instant, a previously added entry behaves as
absent. -/
theorem cacheGet_add_expired (c : Cache) (k : String) (v : Option PruneReport)
    (ttl t t' : Nat) (h0 : c.get k t = none) (h : t + ttl < t') :
    (Cache.add c k v ttl t).1.get k t' = none := by
  have hadd : Cache.add c k v ttl t =
      ({ items := (k, { value := v, expiration := t + ttl }) ::
          c.items.filter (fun p => p.1 != k) }, none) := by
    simp [Cache.add, h0]
  rw [hadd]
  simp [Cache.get, List.lookup, show ¬ t' ≤ t + ttl by omega]

/-- Helper: a `Prune` whose daemon call succeeds only adds the report to the
cache. -/
theorem prune_success_eq (d : Dry) (dd : DaemonResponses) (pr : Option PruneReport)
    (t : Nat) (h : dd.Prune = (pr, none)) :
    d.Prune dd t = { d with cache := (d.cache.add pruneReport pr 30 t).1 } := by
  simp [Dry.Prune, h]

/-- Helper: a `Prune` whose daemon call fails only emits a message. -/
theorem prune_failure_eq (d : Dry) (dd : DaemonResponses) (pr : Option PruneReport)
    (e : GoErr) (t : Nat) (h : dd.Prune = (pr, some e)) :
    d.Prune dd t = d.appmessage ("<red>Error running prune. " ++ e.msg ++ "</>") := by
  simp [Dry.Prune, h]

/-- C2 counterexample: with the 30 second ttl, a second store under the same
key 10 seconds after the first leaves the first value in the cache and returns
an error, instead of replacing the value with the second one as the claim
states. -/
theorem cacheAdd_overwrite_counterexample :
    (Cache.add (Cache.add { items := [] } "k" (some { data := "v1" }) 30 0).1
        "k" (some { data := "v2" }) 30 10).1.get "k" 10 = some (some { data := "v1" }) ∧
    (Cache.add (Cache.add { items := [] } "k" (some { data := "v1" }) 30 0).1
        "k" (some { data := "v2" }) 30 10).2.isSome = true ∧
    ({ data := "v1" } : PruneReport) ≠ { data := "v2" } :=
  ⟨rfl, rfl, by decide⟩

/-- C2 (amended): the store operation the code uses is go-cache `Add`, which
never overwrites a live entry: a second store under the same key before the
first entry expires is rejected with an error and leaves the original value and
expiration unchanged; only once the first entry has expired does a store
replace the value and reset the expiration; in particular a second successful
`Prune` within the 30 second ttl leaves the first report cached. -/
theorem cacheAdd_second_store (c : Cache) (k : String) (v1 v2 : Option PruneReport)
    (ttl1 ttl2 t0 t1 t2 : Nat) (d : Dry) (dd1 dd2 : DaemonResponses)
    (r1 r2 : PruneReport)
    (h0 : c.get k t0 = none)
    (h1 : t1 ≤ t0 + ttl1)
    (h2 : t0 + ttl1 < t2)
    (hq : d.cache.get pruneReport t0 = none)
    (hp1 : dd1.Prune = (some r1, none))
    (hp2 : dd2.Prune = (some r2, none))
    (h30 : t1 ≤ t0 + 30) :
    (Cache.add c k v1 ttl1 t0).1.get k t1 = some v1 ∧
    Cache.add (Cache.add c k v1 ttl1 t0).1 k v2 ttl2 t1 =
      ((Cache.add c k v1 ttl1 t0).1, some { msg := "Item " ++ k ++ " already exists" }) ∧
    (Cache.add (Cache.add c k v1 ttl1 t0).1 k v2 ttl2 t2).1.get k t2 = some v2 ∧
    ((d.Prune dd1 t0).Prune dd2 t1).PruneReport t1 = some r1 := by
  have hlive := cacheGet_add_fresh c k v1 ttl1 t0 t1 h0 h1
  refine ⟨hlive, ?_, ?_, ?_⟩
  · exact cacheAdd_live_rejected _ k v2 ttl2 t1 (by rw [hlive]; rfl)
  · have hexp := cacheGet_add_expired c k v1 ttl1 t0 t2 h0 h2
    exact cacheGet_add_fresh _ k v2 ttl2 t2 t2 hexp (Nat.le_add_right t2 ttl2)
  · have hc1 : (d.Prune dd1 t0).cache = (d.cache.add pruneReport (some r1) 30 t0).1 := by
      rw [prune_success_eq d dd1 (some r1) t0 hp1]
    have hget : (d.Prune dd1 t0).cache.get pruneReport t1 = some (some r1) := by
      rw [hc1]; exact cacheGet_add_fresh d.cache pruneReport (some r1) 30 t0 t1 hq h30
    have hrej := cacheAdd_live_rejected ((d.Prune dd1 t0).cache) pruneReport (some r2) 30 t1
      (by rw [hget]; rfl)
    have hc2 : ((d.Prune dd1 t0).Prune dd2 t1).cache = (d.Prune dd1 t0).cache := by
      rw [prune_success_eq (d.Prune dd1 t0) dd2 (some r2) t1 hp2]
      show ((d.Prune dd1 t0).cache.add pruneReport (some r2) 30 t1).1 = _
      rw [hrej]
    simp [Dry.PruneReport, hc2, hget]

/-- Witness for C2 (amended) at concrete values: first store at t=0, rejected
second store at t=10, accepted store at t=31, and the two-prune scenario. -/
theorem cacheAdd_second_store_witness :
    (Cache.add { items := [] } "k" (some { data := "v1" }) 30 0).1.get "k" 10 =
      some (some { data := "v1" }) ∧
    Cache.add (Cache.add { items := [] } "k" (some { data := "v1" }) 30 0).1
        "k" (some { data := "v2" }) 30 10 =
      ((Cache.add { items := [] } "k" (some { data := "v1" }) 30 0).1,
        some { msg := "Item " ++ "k" ++ " already exists" }) ∧
    (Cache.add (Cache.add { items := [] } "k" (some { data := "v1" }) 30 0).1
        "k" (some { data := "v2" }) 30 31).1.get "k" 31 = some (some { data := "v2" }) ∧
    ((newDry.Prune ddOk 0).Prune ddPrune2 10).PruneReport 10 = some { data := "report-1" } :=
  cacheAdd_second_store { items := [] } "k" (some { data := "v1" }) (some { data := "v2" })
    30 30 0 10 31 newDry ddOk ddPrune2 { data := "report-1" } { data := "report-2" }
    rfl (by decide) (by decide) rfl rfl rfl (by decide)

/-- C7 counterexample: a first successful Prune at t=0 followed by a second
successful Prune at t=10 (within the 30 second ttl, with a different report):
PruneReport afterwards still returns the first report, not the report produced
by that most recent Prune call. -/
theorem pruneReport_second_prune_counterexample :
    ((newDry.Prune ddOk 0).Prune ddPrune2 10).PruneReport 10 = some { data := "report-1" } ∧
    ddPrune2.Prune = (some { data := "report-2" }, none) ∧
    ({ data := "report-1" } : PruneReport) ≠ { data := "report-2" } :=
  ⟨rfl, rfl, by decide⟩

/-- C7 (amended): PruneReport invoked after a successful Prune whose report was
actually stored — the cache held no unexpired entry when the Prune ran, as for
the first ever Prune — and before the 30 second ttl elapses returns exactly
that Prune's report; with no prior successful Prune (initial state, or after a
failed Prune) it returns nil. -/
theorem pruneReport_semantics (d : Dry) (dd ddf : DaemonResponses) (r : PruneReport)
    (e : GoErr) (t t' u u0 : Nat)
    (hq : d.cache.get pruneReport t = none)
    (hdd : dd.Prune = (some r, none))
    (ht : t' ≤ t + 30)
    (hf : ddf.Prune = (none, some e)) :
    (d.Prune dd t).PruneReport t' = some r ∧
    newDry.PruneReport u = none ∧
    (newDry.Prune ddf u0).PruneReport u = none := by
  refine ⟨?_, rfl, ?_⟩
  · have hc : (d.Prune dd t).cache = (d.cache.add pruneReport (some r) 30 t).1 := by
      rw [prune_success_eq d dd (some r) t hdd]
    have hget : (d.Prune dd t).cache.get pruneReport t' = some (some r) := by
      rw [hc]; exact cacheGet_add_fresh d.cache pruneReport (some r) 30 t t' hq ht
    simp [Dry.PruneReport, hget]
  · rw [prune_failure_eq newDry ddf none e u0 hf]
    rfl

/-- Witness for C7 (amended): a first Prune at t=0 read back at t=10, the
initial state read at t=5, and a failed Prune read at t=5. -/
theorem pruneReport_semantics_witness :
    (newDry.Prune ddOk 0).PruneReport 10 = some { data := "report-1" } ∧
    newDry.PruneReport 5 = none ∧
    (newDry.Prune ddFail 0).PruneReport 5 = none :=
  pruneReport_semantics newDry ddOk ddFail { data := "report-1" } { msg := "prune fail" }
    0 10 5 0 rfl rfl (by decide) rfl

/-- C9: at a failing position where the gateway returns a nil record with the
error (the usual Go convention), `InspectImageAt` dereferences the nil record
while formatting its failure message and panics (modelled as `none`) instead of
emitting the claimed outbox message; `HistoryAt` at the very same input behaves
as the claim states: it skips the by-id step, emits a message containing the
word "Error" and leaves the state (hence the view mode) unchanged. -/
theorem inspectImageAt_nil_record_divergence :
    newDry.InspectImageAt ddNil 0 = none ∧
    newDry.HistoryAt ddNil 0 = some (newDry.appmessage
      ("<red>Error getting history of image </><white>: " ++ "no image at position 0" ++ "</>")) ∧
    containsWord
      ("<red>Error getting history of image </><white>: " ++ "no image at position 0" ++ "</>")
      "Error" = true :=
  ⟨rfl, rfl, by decide⟩
